import Mathlib

/-!
Verification of the embeddings server in `app/main.py`.

The module-level Python code is shallowly embedded as follows:
* Python exceptions are an opaque structure `PyErr`; fallible calls return
  `Except PyErr α`.
* The two embedding libraries (fastembed and sentence-transformers) are
  external collaborators; they are modelled as black-box functions packaged
  in a `PyWorld` record, so startup is a function of the world.
* Numeric scalar values produced by the backends are modelled by their exact
  value as a rational number; `PyNum` carries the value a Python `float(...)`
  coercion would extract (the widening coercion from a narrower float to a
  64-bit float is value-preserving).
* The module-level try/except becomes `startup`; the two route handlers
  become the pure functions `health` and `embed` over the startup-produced
  `AppState`; request handling as a whole is the state-passing `runRequests`.
-/

namespace EmbeddingsServer

/-- An opaque Python exception (the code never discriminates by error type). -/
structure PyErr where
  msg : String
deriving Repr, DecidableEq

/-- A raw numeric scalar yielded by the fastembed backend.  The backend may
use a narrower representation (e.g. float32); `toFloat64` is the exact value
that Python's `float(...)` coercion yields for it. -/
structure PyNum where
  toFloat64 : Rat
deriving Repr, DecidableEq

/-- Model object of the primary (fastembed) backend.  `embed` models
`embedder.embed(inputs)` fully materialised: the lazy iterator of vectors it
returns, or the exception raised while consuming it. -/
structure FastembedModel where
  embed : List String → Except PyErr (List (List PyNum))

/-- The array-like structure returned by sentence-transformers' `encode`;
`tolist` is its conversion to nested lists of plain floats. -/
structure NDArray where
  tolist : List (List Rat)
deriving Repr, DecidableEq

/-- Model object of the secondary (sentence-transformers) backend.  `encode`
models `embedder.encode(inputs, normalize_embeddings=flag)`. -/
structure STModel where
  encode : List String → Bool → Except PyErr NDArray

/-- The external world visible to module-level startup code: the environment
variable, the two library imports (which may raise, e.g. `ImportError`), and
the two model constructors (which may raise). -/
structure PyWorld where
  model_id_env : Option String
  importFastembed : Except PyErr Unit
  textEmbedding : String → Except PyErr FastembedModel
  importSentenceTransformers : Except PyErr Unit
  sentenceTransformer : String → Except PyErr STModel

/-- `os.getenv("MODEL_ID", "BAAI/bge-small-en-v1.5")`. -/
def getenvModelId (w : PyWorld) : String :=
  w.model_id_env.getD "BAAI/bge-small-en-v1.5"

/-- The initialised model object: either backend's. -/
inductive Embedder where
  | fe (m : FastembedModel)
  | st (m : STModel)

/-- The module-level globals after successful startup: `MODEL_ID`,
`_backend` and `embedder`. -/
structure AppState where
  MODEL_ID : String
  backendName : String
  embedder : Embedder

/-- The body of the `try` block: `from fastembed import TextEmbedding` then
`TextEmbedding(model_name=id)`. -/
def primaryInit (w : PyWorld) (id : String) : Except PyErr FastembedModel := do
  w.importFastembed
  w.textEmbedding id

/-- The body of the `except` block: `from sentence_transformers import
SentenceTransformer` then `SentenceTransformer(id)`. -/
def secondaryInit (w : PyWorld) (id : String) : Except PyErr STModel := do
  w.importSentenceTransformers
  w.sentenceTransformer id

/-- Module-level startup: read `MODEL_ID`, try the fastembed backend, and on
any exception fall back to sentence-transformers; an exception there too is
fatal (the error propagates, the process never becomes ready). -/
def startup (w : PyWorld) : Except PyErr AppState :=
  match primaryInit w (getenvModelId w) with
  | .ok m => .ok ⟨getenvModelId w, "fastembed", .fe m⟩
  | .error _ =>
    match secondaryInit w (getenvModelId w) with
    | .ok m => .ok ⟨getenvModelId w, "sentence-transformers", .st m⟩
    | .error e => .error e

/-- The `/health` handler's return value: `{"status": "ok", "model": MODEL_ID}`,
as an ordered association list. -/
def health (s : AppState) : List (String × String) :=
  [("status", "ok"), ("model", s.MODEL_ID)]

/-- The `/embed` request body. -/
structure EmbedRequest where
  inputs : List String
deriving Repr, DecidableEq

/-- The `/embed` response body: `{"embeddings": [[float, ...], ...]}`. -/
structure EmbedResponse where
  embeddings : List (List Rat)
deriving Repr, DecidableEq

/-- The `/embed` handler.  It branches on the string `_backend`; on the
fastembed path it materialises `list(embedder.embed(req.inputs))` and builds
`[list(map(float, e)) for e in embs]`; on the other path it returns
`embedder.encode(req.inputs, normalize_embeddings=True).tolist()`.  A raised
exception propagates (an `.error` result).  The two mismatch branches model
the `AttributeError` dynamic Python would raise if `_backend` disagreed with
the class of `embedder`; `startup` never produces such a state. -/
def embed (s : AppState) (req : EmbedRequest) : Except PyErr EmbedResponse :=
  if s.backendName = "fastembed" then
    match s.embedder with
    | .fe m =>
      match m.embed req.inputs with
      | .ok embs => .ok ⟨embs.map (fun e => e.map PyNum.toFloat64)⟩
      | .error e => .error e
    | .st _ => .error ⟨"AttributeError"⟩
  else
    match s.embedder with
    | .st m =>
      match m.encode req.inputs true with
      | .ok arr => .ok ⟨arr.tolist⟩
      | .error e => .error e
    | .fe _ => .error ⟨"AttributeError"⟩

/-- A request hitting the service: either route. -/
inductive Request where
  | healthReq
  | embedReq (r : EmbedRequest)

/-- A response from the service: either route's. -/
inductive Response where
  | healthResp (body : List (String × String))
  | embedResp (r : Except PyErr EmbedResponse)

/-- One request handled against the module globals, as a state transformer:
the handler bodies only read the globals, never assign them. -/
def handle (s : AppState) : Request → AppState × Response
  | .healthReq => (s, .healthResp (health s))
  | .embedReq r => (s, .embedResp (embed s r))

/-- A sequence of requests handled one after the other, threading the
module-global state through. -/
def runRequests (s : AppState) : List Request → AppState × List Response
  | [] => (s, [])
  | r :: rs =>
    let p := handle s r
    let q := runRequests p.1 rs
    (q.1, p.2 :: q.2)

/-- Library contract from the spec (external collaborator): the fastembed
batch call yields one vector per input. -/
def FastembedModel.OneVectorPerInput (m : FastembedModel) : Prop :=
  ∀ xs out, m.embed xs = .ok out → out.length = xs.length

/-- Library contract from the spec (external collaborator): the
sentence-transformers batch call yields one vector per input. -/
def STModel.OneVectorPerInput (m : STModel) : Prop :=
  ∀ xs b arr, m.encode xs b = .ok arr → arr.tolist.length = xs.length

/-- Squared L2 norm of a vector. -/
def sumSq (v : List Rat) : Rat :=
  (v.map (fun x => x * x)).sum

/-- Library contract from the spec (external collaborator): when called with
the L2-normalization flag set, every vector sentence-transformers returns has
unit length. -/
def STModel.Normalizes (m : STModel) : Prop :=
  ∀ xs arr, m.encode xs true = .ok arr → ∀ v ∈ arr.tolist, sumSq v = 1

/-- A concrete fastembed model for witnesses: every input yields the
two-dimensional vector (1, 0), as float32-like scalars. -/
def feSample : FastembedModel :=
  ⟨fun xs => .ok (xs.map (fun _ => [⟨1⟩, ⟨0⟩]))⟩

/-- A concrete sentence-transformers model for witnesses: every input yields
the unit vector (3/5, 4/5). -/
def stSample : STModel :=
  ⟨fun xs _b => .ok ⟨xs.map (fun _ => [(3 : Rat)/5, 4/5])⟩⟩

/-- A concrete fastembed model whose batch call always raises. -/
def feBoom : FastembedModel :=
  ⟨fun _ => .error ⟨"Boom"⟩⟩

/-- A concrete sentence-transformers model whose batch call always raises. -/
def stBoom : STModel :=
  ⟨fun _ _ => .error ⟨"Boom"⟩⟩

/-- A world in which the primary backend initialises fine. -/
def wPrimaryOk : PyWorld :=
  ⟨none, .ok (), fun _ => .ok feSample, .ok (), fun _ => .ok stSample⟩

/-- A world in which the fastembed constructor raises but the secondary
backend initialises fine. -/
def wCtorFails : PyWorld :=
  ⟨none, .ok (), fun _ => .error ⟨"RuntimeError"⟩, .ok (), fun _ => .ok stSample⟩

/-- A world in which `import fastembed` itself raises ImportError, the
fastembed constructor would have succeeded, and the secondary backend
initialises fine. -/
def wImportFails : PyWorld :=
  ⟨none, .error ⟨"ImportError"⟩, fun _ => .ok feSample, .ok (), fun _ => .ok stSample⟩

/-- A world in which both backends fail to initialise. -/
def wBothFail : PyWorld :=
  ⟨none, .ok (), fun _ => .error ⟨"RuntimeError"⟩, .ok (), fun _ => .error ⟨"OSError"⟩⟩

/-- The state startup reaches in `wPrimaryOk`. -/
def sFe : AppState :=
  ⟨"BAAI/bge-small-en-v1.5", "fastembed", .fe feSample⟩

/-- The state startup reaches in `wCtorFails`. -/
def sSt : AppState :=
  ⟨"BAAI/bge-small-en-v1.5", "sentence-transformers", .st stSample⟩

/-- A fastembed-backed state whose model raises on every request. -/
def sFeBoom : AppState :=
  ⟨"BAAI/bge-small-en-v1.5", "fastembed", .fe feBoom⟩

/-- A sentence-transformers-backed state whose model raises on every request. -/
def sStBoom : AppState :=
  ⟨"BAAI/bge-small-en-v1.5", "sentence-transformers", .st stBoom⟩

/-- Helper: a state produced by startup carries the configured identifier. -/
theorem startup_ok_MODEL_ID (w : PyWorld) (s : AppState)
    (h : startup w = .ok s) : s.MODEL_ID = getenvModelId w := by
  unfold startup at h
  cases hp : primaryInit w (getenvModelId w) with
  | ok m => rw [hp] at h; cases h; rfl
  | error e =>
    rw [hp] at h
    cases hs : secondaryInit w (getenvModelId w) with
    | ok m => rw [hs] at h; cases h; rfl
    | error e2 => rw [hs] at h; cases h

/-- Helper: on the fastembed branch, a successful backend call yields the
element-wise float64 coercion of the materialised vectors. -/
theorem embed_fe_ok (s : AppState) (m : FastembedModel) (req : EmbedRequest)
    (raw : List (List PyNum))
    (hb : s.backendName = "fastembed") (he : s.embedder = .fe m)
    (hr : m.embed req.inputs = .ok raw) :
    embed s req = .ok ⟨raw.map (fun e => e.map PyNum.toFloat64)⟩ := by
  obtain ⟨mid, bn, emb⟩ := s
  cases hb; cases he
  simp [embed, hr]

/-- Helper: on the fastembed branch, a backend exception propagates. -/
theorem embed_fe_err (s : AppState) (m : FastembedModel) (req : EmbedRequest)
    (e : PyErr)
    (hb : s.backendName = "fastembed") (he : s.embedder = .fe m)
    (hr : m.embed req.inputs = .error e) :
    embed s req = .error e := by
  obtain ⟨mid, bn, emb⟩ := s
  cases hb; cases he
  simp [embed, hr]

/-- Helper: on the non-fastembed branch, a successful encode call yields
exactly the `tolist` conversion of the array. -/
theorem embed_st_ok (s : AppState) (m : STModel) (req : EmbedRequest)
    (arr : NDArray)
    (hb : s.backendName ≠ "fastembed") (he : s.embedder = .st m)
    (hr : m.encode req.inputs true = .ok arr) :
    embed s req = .ok ⟨arr.tolist⟩ := by
  obtain ⟨mid, bn, emb⟩ := s
  cases he
  simp only [embed] at hb ⊢
  rw [if_neg hb]
  simp [hr]

/-- Helper: on the non-fastembed branch, a backend exception propagates. -/
theorem embed_st_err (s : AppState) (m : STModel) (req : EmbedRequest)
    (e : PyErr)
    (hb : s.backendName ≠ "fastembed") (he : s.embedder = .st m)
    (hr : m.encode req.inputs true = .error e) :
    embed s req = .error e := by
  obtain ⟨mid, bn, emb⟩ := s
  cases he
  simp only [embed] at hb ⊢
  rw [if_neg hb]
  simp [hr]

/-- Helper: inversion for a successful embed call. -/
theorem embed_ok_inv (s : AppState) (req : EmbedRequest) (resp : EmbedResponse)
    (hok : embed s req = .ok resp) :
    (∃ m raw, s.backendName = "fastembed" ∧ s.embedder = .fe m ∧
      m.embed req.inputs = .ok raw ∧
      resp = ⟨raw.map (fun e => e.map PyNum.toFloat64)⟩) ∨
    (∃ m arr, s.backendName ≠ "fastembed" ∧ s.embedder = .st m ∧
      m.encode req.inputs true = .ok arr ∧ resp = ⟨arr.tolist⟩) := by
  by_cases hb : s.backendName = "fastembed"
  · cases he : s.embedder with
    | fe m =>
      cases hr : m.embed req.inputs with
      | ok raw =>
        have hx := embed_fe_ok s m req raw hb he hr
        rw [hx] at hok
        injection hok with h
        exact Or.inl ⟨m, raw, hb, rfl, hr, h.symm⟩
      | error e =>
        have hx := embed_fe_err s m req e hb he hr
        rw [hx] at hok
        exact Except.noConfusion hok
    | st m =>
      obtain ⟨mid, bn, emb⟩ := s
      cases hb; cases he
      simp [embed] at hok
  · cases he : s.embedder with
    | st m =>
      cases hr : m.encode req.inputs true with
      | ok arr =>
        have hx := embed_st_ok s m req arr hb he hr
        rw [hx] at hok
        injection hok with h
        exact Or.inr ⟨m, arr, hb, rfl, hr, h.symm⟩
      | error e =>
        have hx := embed_st_err s m req e hb he hr
        rw [hx] at hok
        exact Except.noConfusion hok
    | fe m =>
      obtain ⟨mid, bn, emb⟩ := s
      cases he
      simp only [embed] at hb hok
      rw [if_neg hb] at hok
      exact Except.noConfusion hok

/-- Helper: the sample fastembed model returns one vector per input. -/
theorem feSample_one_per_input : feSample.OneVectorPerInput := by
  intro xs out hout
  injection hout with h
  rw [← h, List.length_map]

/-- Helper: the sample sentence-transformers model returns one vector per
input. -/
theorem stSample_one_per_input : stSample.OneVectorPerInput := by
  intro xs b arr harr
  injection harr with h
  rw [← h]
  simp [List.length_map]

/-- Helper: the sample sentence-transformers model returns unit vectors. -/
theorem stSample_normalizes : stSample.Normalizes := by
  intro xs arr harr v hv
  injection harr with h
  rw [← h] at hv
  simp only [List.mem_map] at hv
  obtain ⟨x, _, rfl⟩ := hv
  norm_num [sumSq]

/-- Helper: the fastembed-backed state satisfies the fastembed-side
contract hypothesis. -/
theorem sFe_fe_contract :
    ∀ m, sFe.embedder = .fe m → m.OneVectorPerInput := by
  intro m hm
  injection hm with h
  exact h ▸ feSample_one_per_input

/-- Helper: the fastembed-backed state vacuously satisfies the
sentence-transformers-side contract hypothesis. -/
theorem sFe_st_contract :
    ∀ m, sFe.embedder = .st m → m.OneVectorPerInput := by
  intro m hm
  exact Embedder.noConfusion hm

/-- Helper: the sentence-transformers-backed state vacuously satisfies the
fastembed-side contract hypothesis. -/
theorem sSt_fe_contract :
    ∀ m, sSt.embedder = .fe m → m.OneVectorPerInput := by
  intro m hm
  exact Embedder.noConfusion hm

/-- Helper: the sentence-transformers-backed state satisfies the
sentence-transformers-side contract hypothesis. -/
theorem sSt_st_contract :
    ∀ m, sSt.embedder = .st m → m.OneVectorPerInput := by
  intro m hm
  injection hm with h
  exact h ▸ stSample_one_per_input

/-- Claim C1: at startup the service first attempts the primary (fastembed)
backend with the configured model identifier; on any exception it attempts
the secondary (sentence-transformers) backend with the same identifier; if
that also fails, startup fails fatally with that error, with no further
fallback or retry. -/
theorem C1_startup_fallback_order (w : PyWorld) :
    (∀ m, primaryInit w (getenvModelId w) = .ok m →
      startup w = .ok ⟨getenvModelId w, "fastembed", .fe m⟩) ∧
    (∀ e m, primaryInit w (getenvModelId w) = .error e →
      secondaryInit w (getenvModelId w) = .ok m →
      startup w = .ok ⟨getenvModelId w, "sentence-transformers", .st m⟩) ∧
    (∀ e e2, primaryInit w (getenvModelId w) = .error e →
      secondaryInit w (getenvModelId w) = .error e2 →
      startup w = .error e2) := by
  refine ⟨fun m hp => ?_, fun e m hp hs => ?_, fun e e2 hp hs => ?_⟩
  · unfold startup
    rw [hp]
  · unfold startup
    rw [hp, hs]
  · unfold startup
    rw [hp, hs]

/-- Witness for C1: in `wCtorFails` the fastembed constructor raises and the
service comes up on sentence-transformers; in `wBothFail` both backends fail
and startup propagates the second error. -/
theorem C1_startup_fallback_order_witness :
    startup wPrimaryOk = .ok ⟨"BAAI/bge-small-en-v1.5", "fastembed", .fe feSample⟩ ∧
    startup wCtorFails = .ok ⟨"BAAI/bge-small-en-v1.5", "sentence-transformers", .st stSample⟩ ∧
    startup wBothFail = .error ⟨"OSError"⟩ :=
  ⟨(C1_startup_fallback_order wPrimaryOk).1 feSample rfl,
   (C1_startup_fallback_order wCtorFails).2.1 ⟨"RuntimeError"⟩ stSample rfl rfl,
   (C1_startup_fallback_order wBothFail).2.2 ⟨"RuntimeError"⟩ ⟨"OSError"⟩ rfl rfl⟩

/-- Claim C2: a successful embed call returns exactly one vector per input
string, in order.  The length equality holds in both backend paths under the
libraries' one-vector-per-input contract; the two further conjuncts pin the
order: on the fastembed path the i-th response vector is the float64 coercion
of the i-th backend vector, and on the sentence-transformers path the
response is exactly the backend array's list, unreordered. -/
theorem C2_one_vector_per_input (s : AppState) (req : EmbedRequest)
    (resp : EmbedResponse)
    (hok : embed s req = .ok resp)
    (hfe : ∀ m, s.embedder = .fe m → m.OneVectorPerInput)
    (hst : ∀ m, s.embedder = .st m → m.OneVectorPerInput) :
    resp.embeddings.length = req.inputs.length ∧
    (∀ m raw, s.embedder = .fe m → m.embed req.inputs = .ok raw →
      ∀ i (h1 : i < resp.embeddings.length) (h2 : i < raw.length),
        resp.embeddings.get ⟨i, h1⟩ = (raw.get ⟨i, h2⟩).map PyNum.toFloat64) ∧
    (∀ m arr, s.embedder = .st m → m.encode req.inputs true = .ok arr →
      resp.embeddings = arr.tolist) := by
  rcases embed_ok_inv s req resp hok with
    ⟨m, raw, hb, he, hr, rfl⟩ | ⟨m, arr, hb, he, hr, rfl⟩
  · refine ⟨by simpa using hfe m he req.inputs raw hr, ?_, ?_⟩
    · intro m2 raw2 he2 hr2 i h1 h2
      rw [he] at he2
      injection he2 with hm
      subst hm
      rw [hr] at hr2
      injection hr2 with hraw
      subst hraw
      simp
    · intro m2 arr2 he2 _
      rw [he] at he2
      exact Embedder.noConfusion he2
  · refine ⟨by simpa using hst m he req.inputs true arr hr, ?_, fun m2 arr2 he2 hr2 => ?_⟩
    · intro m2 raw2 he2 _
      rw [he] at he2
      exact Embedder.noConfusion he2
    · rw [he] at he2
      injection he2 with hm
      subst hm
      rw [hr] at hr2
      injection hr2 with harr
      rw [harr]

/-- Witness for C2: three inputs on the sentence-transformers-backed state
yield exactly three vectors, equal to the backend array's list. -/
theorem C2_one_vector_per_input_witness :
    (EmbedResponse.mk [[(3 : Rat)/5, 4/5], [(3 : Rat)/5, 4/5], [(3 : Rat)/5, 4/5]]).embeddings.length
      = (["a", "b", "c"] : List String).length ∧
    (EmbedResponse.mk [[(3 : Rat)/5, 4/5], [(3 : Rat)/5, 4/5], [(3 : Rat)/5, 4/5]]).embeddings
      = (NDArray.mk [[(3 : Rat)/5, 4/5], [(3 : Rat)/5, 4/5], [(3 : Rat)/5, 4/5]]).tolist :=
  ⟨(C2_one_vector_per_input sSt ⟨["a", "b", "c"]⟩ _ rfl sSt_fe_contract sSt_st_contract).1,
   (C2_one_vector_per_input sSt ⟨["a", "b", "c"]⟩ _ rfl sSt_fe_contract sSt_st_contract).2.2
     stSample ⟨[[(3 : Rat)/5, 4/5], [(3 : Rat)/5, 4/5], [(3 : Rat)/5, 4/5]]⟩ rfl rfl⟩

/-- Claim C3: for any state reached by startup, the health check returns the
mapping with status "ok" and the configured model identifier; and its result
depends only on the `MODEL_ID` field, never on the resolved backend — any
state with the same identifier, whatever its backend, reports the same. -/
theorem C3_health_reports_model_id (w : PyWorld) (s : AppState)
    (h : startup w = .ok s) :
    health s = [("status", "ok"), ("model", getenvModelId w)] ∧
    (∀ t : AppState, t.MODEL_ID = s.MODEL_ID → health t = health s) := by
  constructor
  · rw [health, startup_ok_MODEL_ID w s h]
  · intro t ht
    rw [health, health, ht]

/-- Witness for C3: health on the primary-backed state, and backend
independence against the fallback-backed state. -/
theorem C3_health_reports_model_id_witness :
    health sFe = [("status", "ok"), ("model", "BAAI/bge-small-en-v1.5")] ∧
    health sSt = health sFe :=
  ⟨(C3_health_reports_model_id wPrimaryOk sFe rfl).1,
   (C3_health_reports_model_id wPrimaryOk sFe rfl).2 sSt rfl⟩

/-- Claim C4: a successful embed call on the empty input sequence returns
exactly the empty embeddings response, in whichever backend path, under the
libraries' one-vector-per-input contract. -/
theorem C4_empty_inputs (s : AppState) (resp : EmbedResponse)
    (hok : embed s ⟨[]⟩ = .ok resp)
    (hfe : ∀ m, s.embedder = .fe m → m.OneVectorPerInput)
    (hst : ∀ m, s.embedder = .st m → m.OneVectorPerInput) :
    resp = ⟨[]⟩ := by
  rcases embed_ok_inv s ⟨[]⟩ resp hok with
    ⟨m, raw, hb, he, hr, rfl⟩ | ⟨m, arr, hb, he, hr, rfl⟩
  · have hlen : raw.length = 0 := hfe m he [] raw hr
    rw [List.length_eq_zero] at hlen
    rw [hlen]
    rfl
  · have hlen : arr.tolist.length = 0 := hst m he [] true arr hr
    rw [List.length_eq_zero] at hlen
    rw [hlen]

/-- Witness for C4: the fastembed-backed sample state maps no inputs to no
vectors. -/
theorem C4_empty_inputs_witness :
    embed sFe ⟨[]⟩ = .ok ⟨[]⟩ ∧
    (EmbedResponse.mk []).embeddings = [] :=
  ⟨rfl, congrArg EmbedResponse.embeddings
    (C4_empty_inputs sFe ⟨[]⟩ rfl sFe_fe_contract sFe_st_contract)⟩

/-- Claim C5: on the primary (fastembed) path, a successful backend call is
materialised in full and every element of every vector passes through the
float64 coercion: the response is exactly the element-wise `toFloat64` image
of the backend's vectors. -/
theorem C5_fastembed_coerces_elements (s : AppState) (m : FastembedModel)
    (req : EmbedRequest) (raw : List (List PyNum))
    (hb : s.backendName = "fastembed") (he : s.embedder = .fe m)
    (hr : m.embed req.inputs = .ok raw) :
    embed s req = .ok ⟨raw.map (fun e => e.map PyNum.toFloat64)⟩ :=
  embed_fe_ok s m req raw hb he hr

/-- Witness for C5: one input through the sample fastembed model. -/
theorem C5_fastembed_coerces_elements_witness :
    embed sFe ⟨["x"]⟩ = .ok ⟨[[(1 : Rat), 0]]⟩ :=
  C5_fastembed_coerces_elements sFe feSample ⟨["x"]⟩ [[⟨1⟩, ⟨0⟩]] rfl rfl rfl

/-- Claim C6: on the secondary (sentence-transformers) path, embed passes the
full input sequence to the batch-encode call with the L2-normalization flag
set to true, and returns exactly the `tolist` conversion of the resulting
array; under the library's normalization contract every returned vector has
unit length (squared L2 norm 1). -/
theorem C6_st_normalized_encode (s : AppState) (m : STModel)
    (req : EmbedRequest) (arr : NDArray)
    (hb : s.backendName = "sentence-transformers") (he : s.embedder = .st m)
    (hr : m.encode req.inputs true = .ok arr) :
    embed s req = .ok ⟨arr.tolist⟩ ∧
    (m.Normalizes → ∀ v ∈ arr.tolist, sumSq v = 1) := by
  constructor
  · refine embed_st_ok s m req arr ?_ he hr
    rw [hb]
    decide
  · intro hn v hv
    exact hn req.inputs arr hr v hv

/-- Witness for C6: one input through the sample sentence-transformers model,
whose normalized output vector has unit squared norm. -/
theorem C6_st_normalized_encode_witness :
    embed sSt ⟨["hi"]⟩ = .ok ⟨[[(3 : Rat)/5, 4/5]]⟩ ∧
    sumSq [(3 : Rat)/5, 4/5] = 1 :=
  ⟨(C6_st_normalized_encode sSt stSample ⟨["hi"]⟩ ⟨[[(3 : Rat)/5, 4/5]]⟩ rfl rfl rfl).1,
   (C6_st_normalized_encode sSt stSample ⟨["hi"]⟩ ⟨[[(3 : Rat)/5, 4/5]]⟩ rfl rfl rfl).2
     stSample_normalizes [(3 : Rat)/5, 4/5] (by simp)⟩

/-- Claim C7: if the selected backend's model call raises during an embed
request, the same error propagates out of embed unchanged: no partial result,
no retry, no request-time fallback to the other backend. -/
theorem C7_error_propagates (s : AppState) (req : EmbedRequest) (e : PyErr) :
    (∀ m, s.backendName = "fastembed" → s.embedder = .fe m →
      m.embed req.inputs = .error e → embed s req = .error e) ∧
    (∀ m, s.backendName = "sentence-transformers" → s.embedder = .st m →
      m.encode req.inputs true = .error e → embed s req = .error e) := by
  constructor
  · intro m hb he hr
    exact embed_fe_err s m req e hb he hr
  · intro m hb he hr
    refine embed_st_err s m req e ?_ he hr
    rw [hb]
    decide

/-- Witness for C7: raising models on either backend make embed return the
same error. -/
theorem C7_error_propagates_witness :
    embed sFeBoom ⟨["x"]⟩ = .error ⟨"Boom"⟩ ∧
    embed sStBoom ⟨["x"]⟩ = .error ⟨"Boom"⟩ :=
  ⟨(C7_error_propagates sFeBoom ⟨["x"]⟩ ⟨"Boom"⟩).1 feBoom rfl rfl rfl,
   (C7_error_propagates sStBoom ⟨["x"]⟩ ⟨"Boom"⟩).2 stBoom rfl rfl rfl⟩

/-- Claim C8: the backend-selection state is never mutated after startup:
handling any sequence of health and embed requests leaves the state exactly
as initialised, and every response is computed against that same initial
state — every embed dispatches on the backend chosen at startup. -/
theorem C8_state_never_mutated (s : AppState) (rs : List Request) :
    (runRequests s rs).1 = s ∧
    (runRequests s rs).2 = rs.map (fun r => (handle s r).2) := by
  induction rs with
  | nil => exact ⟨rfl, rfl⟩
  | cons r rs ih =>
    have h1 : (handle s r).1 = s := by cases r <;> rfl
    simp only [runRequests, h1, List.map_cons]
    exact ⟨ih.1, by rw [ih.2]⟩

/-- Claim C9: with the MODEL_ID environment variable unset, the configured
identifier is exactly "BAAI/bge-small-en-v1.5" (the value startup hands both
backend constructors), and any state startup reaches carries it and reports
it through the health check. -/
theorem C9_default_model_id (w : PyWorld) (h : w.model_id_env = none) :
    getenvModelId w = "BAAI/bge-small-en-v1.5" ∧
    (∀ s, startup w = .ok s →
      s.MODEL_ID = "BAAI/bge-small-en-v1.5" ∧
      health s = [("status", "ok"), ("model", "BAAI/bge-small-en-v1.5")]) := by
  have hid : getenvModelId w = "BAAI/bge-small-en-v1.5" := by
    unfold getenvModelId
    rw [h]
    rfl
  refine ⟨hid, fun s hs => ?_⟩
  have hm := startup_ok_MODEL_ID w s hs
  rw [hid] at hm
  exact ⟨hm, by rw [health, hm]⟩

/-- Witness for C9: the sample worlds leave MODEL_ID unset and get the
default identifier. -/
theorem C9_default_model_id_witness :
    getenvModelId wPrimaryOk = "BAAI/bge-small-en-v1.5" ∧
    sFe.MODEL_ID = "BAAI/bge-small-en-v1.5" ∧
    health sFe = [("status", "ok"), ("model", "BAAI/bge-small-en-v1.5")] :=
  ⟨(C9_default_model_id wPrimaryOk rfl).1,
   ((C9_default_model_id wPrimaryOk rfl).2 sFe rfl).1,
   ((C9_default_model_id wPrimaryOk rfl).2 sFe rfl).2⟩

/-- Claim C10: the fallback scope covers the import of fastembed itself, not
only model construction: in a world where `import fastembed` raises
ImportError while the TextEmbedding constructor would have succeeded, startup
still succeeds, with the sentence-transformers backend selected. -/
theorem C10_import_triggers_fallback :
    wImportFails.importFastembed = .error ⟨"ImportError"⟩ ∧
    wImportFails.textEmbedding "BAAI/bge-small-en-v1.5" = .ok feSample ∧
    startup wImportFails
      = .ok ⟨"BAAI/bge-small-en-v1.5", "sentence-transformers", .st stSample⟩ :=
  ⟨rfl, rfl, rfl⟩

end EmbeddingsServer
